import Mathlib

/-!
Verification of the client-side data-synchronization, filtering and pagination
logic of the odysseus-app companies dashboard.

The definitions below are shallow embeddings of the TypeScript source:
* `src/unnamed/part_006` — the evolved `Dashboard` component (dual-fetch
  refresh protocol, sort handling, pagination state);
* `src/unnamed/part_003` — the client-side-filtering `CompaniesView`
  (filter predicate, client pagination, page-reset effect);
* `src/odysseus-frontend-v.4.3/components/companies/companies-view.tsx` —
  statistics aggregator, bulk-selection eligibility and bulk actions;
* `src/odysseus-frontend-v.4.3/components/dashboard/dashboard.tsx` — the
  second `Dashboard` revision in that file (its `handleSortChange`);
* `src/odysseus-frontend-v.4.3/components/companies/company-table.tsx` and
  `companies-view.tsx` line 267 — derived `totalPages`.

JavaScript numbers appearing as scores are modelled as rationals (`ℚ`);
timestamps as `Option Int` (absent/unparsable dates map to `none`, since
`new Date(bad) >= d` is `false` in JS); fallible fetches as `Except`.
-/

namespace Odysseus

/-- Company status vocabulary, from `lib/types.ts`. -/
inductive Status where
  | New
  | Vetting
  | Vetted
  | Approved
  | Failed
  | Rejected
deriving DecidableEq, Repr

/-- Company record, the fields of `lib/types.ts` used by the dashboard logic.
`created_at` is `none` when the timestamp is missing or unparsable. -/
structure Company where
  id : Nat
  name : Option String
  domain : String
  status : Status
  group_name : Option String
  unified_score : Option ℚ
  geography_score : Option ℚ
  industry_score : Option ℚ
  russia_score : Option ℚ
  size_score : Option ℚ
  created_at : Option Int
deriving DecidableEq, Repr

/-- Contact record (only the fields the dashboard state carries). -/
structure Contact where
  id : Nat
  company_id : Nat
  name : String
  status : String
deriving DecidableEq, Repr

/-- The five per-dimension score ranges of the filter specification. -/
structure ScoreRanges where
  unified : ℚ × ℚ
  geography : ℚ × ℚ
  industry : ℚ × ℚ
  russia : ℚ × ℚ
  size : ℚ × ℚ
deriving DecidableEq, Repr

/-- Composite filter specification.  The `include_null_scores` flag is the
later-revision field from `company-filters.tsx`; the part_003 shape omits it
and nothing outside the filter UI reads it. -/
structure CompanyFilters where
  search : String
  status : List Status
  group : List String
  include_null_scores : Bool
  scoreRanges : ScoreRanges
deriving DecidableEq, Repr

/-- All five ranges at the unconstrained default `[0,10]`
(part_006 lines 21-27). -/
def defaultScoreRanges : ScoreRanges :=
  { unified := (0, 10), geography := (0, 10), industry := (0, 10),
    russia := (0, 10), size := (0, 10) }

/-- The default filter specification (part_006 lines 17-28; the
`include_null_scores := true` default is the one `clearFilters` uses in
`company-filters.tsx` lines 63-75). -/
def defaultFilters : CompanyFilters :=
  { search := "", status := [], group := [], include_null_scores := true,
    scoreRanges := defaultScoreRanges }

/-! ## Pagination: derived page count

`companies-view.tsx` line 267: `totalPages={Math.ceil(totalCompanies / itemsPerPage)}`
`part_003` line 134: `const totalPages = Math.ceil(filteredCompanies.length / itemsPerPage)`
-/

/-- Ceiling division on naturals; for `0 < b` this is `Math.ceil(a / b)` on
non-negative integer arguments. -/
def ceilDivNat (a b : Nat) : Nat := (a + b - 1) / b

/-- Derived page count, exactly as both cited sources compute it:
`Math.ceil(totalResults / itemsPerPage)`, with no lower clamp. -/
def totalPages (totalResults itemsPerPage : Nat) : Nat :=
  ceilDivNat totalResults itemsPerPage

/-! ## Sort handling

`part_006` lines 127-135 (`handleSortChange`, with page reset) and
`dashboard.tsx` lines 211-223 (second revision, without page reset).
-/

/-- Whether a character list starts with another (used to model JS substring
search by explicit recursion). -/
def listStartsWith : List Char → List Char → Bool
  | _, [] => true
  | [], _ :: _ => false
  | a :: as, b :: bs => a == b && listStartsWith as bs

/-- Whether a character list contains another as a contiguous run. -/
def listContainsSub : List Char → List Char → Bool
  | [], needle => needle.isEmpty
  | c :: rest, needle =>
    listStartsWith (c :: rest) needle || listContainsSub rest needle

/-- Models the JS `haystack.includes(needle)` substring test. -/
def jsIncludes (s sub : String) : Bool := listContainsSub s.toList sub.toList

/-- Models the JS `toLowerCase()` (character-wise lowering). -/
def lowerString (s : String) : String := ⟨s.toList.map Char.toLower⟩

/-- Models `field.includes('_score')`: the JS substring test used to pick the
default sort direction for score columns. -/
def fieldIncludesScore (field : String) : Bool :=
  jsIncludes field "_score"

/-- Dashboard state of the part_006 `Dashboard` component
(the `useState` cells at part_006 lines 31-41). -/
structure DashState where
  companies : List Company
  totalCompanies : Nat
  currentPage : Nat
  itemsPerPage : Nat
  filters : CompanyFilters
  sortBy : String
  sortDir : String
  contacts : List Contact
  allCompaniesForStats : List Company
  loading : Bool
deriving DecidableEq, Repr

/-- The initial state of part_006's `Dashboard` (initial `useState` values,
part_006 lines 31-41). -/
def initialDashState : DashState :=
  { companies := [], totalCompanies := 0, currentPage := 1, itemsPerPage := 10,
    filters := defaultFilters, sortBy := "created_at", sortDir := "desc",
    contacts := [], allCompaniesForStats := [], loading := true }

/-- `handleSortChange` of part_006 (lines 127-135): flip direction on the same
field, otherwise adopt the field with a score-aware default direction, and
always reset the page to 1. -/
def handleSortChange006 (st : DashState) (field : String) : DashState :=
  let st1 :=
    if st.sortBy = field then
      { st with sortDir := if st.sortDir = "asc" then "desc" else "asc" }
    else
      { st with sortBy := field,
                sortDir := if fieldIncludesScore field then "desc" else "asc" }
  { st1 with currentPage := 1 }

/-- `handleSortChange` of the second `Dashboard` revision in `dashboard.tsx`
(lines 211-223): same direction logic, but no `setCurrentPage(1)` call. -/
def handleSortChangeV43 (st : DashState) (field : String) : DashState :=
  if st.sortBy = field then
    { st with sortDir := if st.sortDir = "asc" then "desc" else "asc" }
  else
    { st with sortBy := field,
              sortDir := if fieldIncludesScore field then "desc" else "asc" }

/-! ## part_006 parameter setters

part_006 lines 146-151 wire the raw state setters through to the view:
`onPageChange={setCurrentPage}`, `onItemsPerPageChange={setItemsPerPage}`,
`onFiltersChange={setFilters}` — none of them touches any other state cell.
-/

/-- `setCurrentPage` as wired at part_006 line 148. -/
def dashSetPage (st : DashState) (n : Nat) : DashState :=
  { st with currentPage := n }

/-- `setItemsPerPage` as wired at part_006 line 149: no page reset. -/
def dashSetItemsPerPage (st : DashState) (n : Nat) : DashState :=
  { st with itemsPerPage := n }

/-- `setFilters` as wired at part_006 line 151: no page reset. -/
def dashSetFilters (st : DashState) (f : CompanyFilters) : DashState :=
  { st with filters := f }

/-! ## part_003 pagination state

`part_003` keeps its own `currentPage`/`itemsPerPage`/`filters` state and the
effect at lines 136-138 (`useEffect(() => setCurrentPage(1), [filters,
itemsPerPage])`) resets the page after either changes.
-/

/-- Pagination-relevant state of part_003's `CompaniesView`. -/
structure ViewState003 where
  filters : CompanyFilters
  currentPage : Nat
  itemsPerPage : Nat
deriving DecidableEq, Repr

/-- `setItemsPerPage` in part_003 followed by the settled effect of lines
136-138 which resets the page to 1. -/
def viewSetItemsPerPage003 (st : ViewState003) (n : Nat) : ViewState003 :=
  { st with itemsPerPage := n, currentPage := 1 }

/-- `setFilters` in part_003 followed by the settled effect of lines 136-138
which resets the page to 1. -/
def viewSetFilters003 (st : ViewState003) (f : CompanyFilters) : ViewState003 :=
  { st with filters := f, currentPage := 1 }

/-! ## Filter predicate engine

`part_003` lines 78-127: the client-side `filteredCompanies` predicate.  Each
early `return false` becomes a conjunct.  The five score blocks share one
shape, factored into `scoreRangeCheck`.
-/

/-- One score-dimension block of part_003 lines 100-123:
`if (score !== undefined) { if (score < min || score > max) return false }`.
An absent score is never examined and therefore passes. -/
def scoreRangeCheck (range : ℚ × ℚ) (score : Option ℚ) : Bool :=
  match score with
  | some s => !(decide (s < range.1) || decide (range.2 < s))
  | none => true

/-- The part_003 `filteredCompanies` predicate (lines 79-126).  Note that it
never reads `include_null_scores`; a company whose `group_name` is absent (or
the empty string, which is falsy in JS) takes the "No Group" branch. -/
def filteredPred (filters : CompanyFilters) (company : Company) : Bool :=
  (if filters.search ≠ "" then
    (match company.name with
     | some n => jsIncludes (lowerString n) (lowerString filters.search)
     | none => false)
    || jsIncludes (lowerString company.domain) (lowerString filters.search)
   else true)
  &&
  (if filters.status.length > 0 then filters.status.contains company.status
   else true)
  &&
  (if filters.group.length > 0 then
    (match company.group_name with
     | none => filters.group.contains "No Group"
     | some g => filters.group.contains g)
   else true)
  && scoreRangeCheck filters.scoreRanges.unified company.unified_score
  && scoreRangeCheck filters.scoreRanges.geography company.geography_score
  && scoreRangeCheck filters.scoreRanges.industry company.industry_score
  && scoreRangeCheck filters.scoreRanges.russia company.russia_score
  && scoreRangeCheck filters.scoreRanges.size company.size_score

/-- Client-side filtering of part_003 (the `companies.filter(...)` call). -/
def filteredCompanies (filters : CompanyFilters) (companies : List Company) :
    List Company :=
  companies.filter (filteredPred filters)

/-! ## Statistics aggregator

`companies-view.tsx` lines 54-76.  JS arithmetic on the growth metric is
modelled by `JSNum`, which tracks the NaN/Infinity outcomes of dividing by
zero; all other operations stay finite.
-/

/-- A JS number outcome: finite, NaN, or Infinity. -/
inductive JSNum where
  | num (q : ℚ)
  | nan
  | inf
deriving DecidableEq, Repr

/-- JS division for the non-negative operands that occur here:
`0/0` is NaN, `x/0` with `x ≠ 0` is Infinity, otherwise finite. -/
def jsDiv (a b : ℚ) : JSNum :=
  if b = 0 then (if a = 0 then .nan else .inf) else .num (a / b)

/-- JS multiplication of an intermediate result by a positive constant
(NaN and Infinity absorb). -/
def jsMul (x : JSNum) (c : ℚ) : JSNum :=
  match x with
  | .num q => .num (q * c)
  | .nan => .nan
  | .inf => .inf

/-- `companiesThisWeek` (companies-view.tsx lines 60-62): companies whose
parsed `created_at` is at or after the one-week-ago cutoff; a missing or
unparsable timestamp compares false and is not counted. -/
def companiesThisWeek (cs : List Company) (oneWeekAgo : Int) : Nat :=
  (cs.filter (fun c =>
    match c.created_at with
    | some t => decide (oneWeekAgo ≤ t)
    | none => false)).length

/-- `total` of the statistics record (companies-view.tsx line 64). -/
def statsTotal (cs : List Company) : Nat := cs.length

/-- The weekly-growth statistic (companies-view.tsx lines 65-66 and 74):
`previousTotal > 0 ? (companiesThisWeek / previousTotal) * 100
                   : (total > 0 ? 100 : 0)`,
then `isNaN(weeklyGrowth) ? 0 : weeklyGrowth`. -/
def weeklyGrowthStat (cs : List Company) (oneWeekAgo : Int) : JSNum :=
  let thisWeek : Int := companiesThisWeek cs oneWeekAgo
  let total : Int := statsTotal cs
  let previousTotal : Int := total - thisWeek
  let raw : JSNum :=
    if 0 < previousTotal then jsMul (jsDiv (thisWeek : ℚ) (previousTotal : ℚ)) 100
    else if 0 < total then .num 100
    else .num 0
  match raw with
  | .nan => .num 0
  | x => x

/-! ## Synchronization controller: the part_006 refresh protocol

`part_006` lines 46-102: `isScoreFilterActive`, the dual-fetch composite
query, the JS-`Map` de-duplication, and the atomic commit / single-toast
error path of `refreshData`.
-/

/-- `isScoreFilterActive` (part_006 lines 46-55): at least one of the five
ranges is narrowed from `[0,10]`. -/
def isScoreFilterActive (filters : CompanyFilters) : Bool :=
  let r := filters.scoreRanges
  decide (0 < r.unified.1) || decide (r.unified.2 < 10) ||
  decide (0 < r.geography.1) || decide (r.geography.2 < 10) ||
  decide (0 < r.industry.1) || decide (r.industry.2 < 10) ||
  decide (0 < r.russia.1) || decide (r.russia.2 < 10) ||
  decide (0 < r.size.1) || decide (r.size.2 < 10)

/-- One `Map.set` step on an association list: an existing key keeps its
position but its value is replaced; a fresh key is appended.  This is the
native semantics of the JS `Map` built at part_006 line 72. -/
def jsMapInsert : List (Nat × Company) → Nat × Company → List (Nat × Company)
  | [], e => [e]
  | p :: ps, e => if p.1 == e.1 then e :: ps else p :: jsMapInsert ps e

/-- `new Map(entries)`: insert every entry in order into an empty map. -/
def jsMapOfList (es : List (Nat × Company)) : List (Nat × Company) :=
  es.foldl jsMapInsert []

/-- part_006 lines 71-72:
`const combined = [...scoredResponse.data, ...unscoredResponse.data];`
`Array.from(new Map(combined.map(c => [c.id, c])).values())`. -/
def mergeCompanies (primary aux : List Company) : List Company :=
  (jsMapOfList ((primary ++ aux).map (fun c => (c.id, c)))).map Prod.snd

/-- Association-list lookup: the value of the first pair with the given key. -/
def pairLookup (m : List (Nat × Company)) (k : Nat) : Option Company :=
  (m.find? (fun p => p.1 == k)).map Prod.snd

/-- Result shape of `apiClient.getCompanies` (`lib/api.ts`): the page data and
the server-side total count from the content-range header. -/
structure CompaniesResponse where
  data : List Company
  count : Nat
deriving DecidableEq, Repr

/-- Parameters of one `getCompanies` call. -/
structure GetCompaniesParams where
  page : Nat
  limit : Nat
  filters : CompanyFilters
  sortBy : String
  sortDir : String
deriving DecidableEq, Repr

/-- The primary paginated query of `refreshData`
(part_006 lines 67 and 78): the current parameters, as captured when the
refresh starts. -/
def primaryRequest (st : DashState) : GetCompaniesParams :=
  { page := st.currentPage, limit := st.itemsPerPage, filters := st.filters,
    sortBy := st.sortBy, sortDir := st.sortDir }

/-- The auxiliary query of the composite fetch (part_006 line 68): page 1,
page size 1000, statuses `New`/`Failed`, score ranges reset to the default. -/
def auxiliaryRequest (st : DashState) : GetCompaniesParams :=
  let auxFilters : CompanyFilters :=
    { st.filters with status := [Status.New, Status.Failed],
                      scoreRanges := defaultScoreRanges }
  { page := 1, limit := 1000, filters := auxFilters,
    sortBy := "created_at", sortDir := "desc" }

/-- The settled results of the (up to four) fetches one refresh cycle issues.
`auxiliary` is only consulted when the score filter is active, matching the
control flow of part_006 lines 65-86. -/
structure FetchResults where
  primary : Except String CompaniesResponse
  auxiliary : Except String CompaniesResponse
  contacts : Except String (List Contact)
  stats : Except String (List Company)
deriving Repr

/-- Tests whether a fetch result is a rejection. -/
def fetchFailed {α : Type} (x : Except String α) : Bool :=
  match x with
  | .error _ => true
  | .ok _ => false

/-- The body of `refreshData` (part_006 lines 57-102) as a function of the
state when the cycle started and the settled fetch results.  Returns the new
state and the number of error toasts surfaced.  The companies fetches settle
first (lines 65-81); the contacts/stats pair is only awaited afterwards
(lines 83-86); any rejection jumps to the single `catch` (lines 92-98) before
any setter runs, and `finally` clears the loading flag (line 100). -/
def refreshOutcome (st : DashState) (res : FetchResults) : DashState × Nat :=
  let stage1 : Except String (List Company × Nat) :=
    if isScoreFilterActive st.filters then
      match res.primary, res.auxiliary with
      | .ok p, .ok a => .ok (mergeCompanies p.data a.data, p.count + a.count)
      | .error e, _ => .error e
      | _, .error e => .error e
    else
      match res.primary with
      | .ok p => .ok (p.data, p.count)
      | .error e => .error e
  match stage1 with
  | .error _ => ({ st with loading := false }, 1)
  | .ok (finalCompanies, finalCount) =>
    match res.contacts, res.stats with
    | .ok cd, .ok sd =>
      ({ st with companies := finalCompanies, totalCompanies := finalCount,
                 contacts := cd, allCompaniesForStats := sd,
                 loading := false }, 0)
    | _, _ => ({ st with loading := false }, 1)

/-! ## Interleaving of refresh cycles with parameter changes

part_006 has no request generation counter and no cancellation: when an
in-flight `refreshData`'s promises settle, its closure runs the state setters
(lines 88-91) unconditionally — nothing compares the parameters the response
was fetched under with the current parameters.  `stepEvent` models the
resulting event loop; `pendingRequests` records which parameters each started
cycle captured.
-/

/-- A dashboard plus the parameter snapshots of started refresh cycles. -/
structure TraceState where
  dash : DashState
  pendingRequests : List GetCompaniesParams
deriving DecidableEq, Repr

/-- Events of the part_006 dashboard loop. -/
inductive DashEvent where
  | setPage (n : Nat)
  | setItems (n : Nat)
  | changeFilters (f : CompanyFilters)
  | refreshStart
  | refreshArrive (res : FetchResults)

/-- One event-loop step.  `refreshArrive` applies the commit of part_006
lines 88-101 to the *current* state, whatever parameters the response was
fetched under — exactly what the stale closure's setters do. -/
def stepEvent (ts : TraceState) : DashEvent → TraceState
  | .setPage n => { ts with dash := dashSetPage ts.dash n }
  | .setItems n => { ts with dash := dashSetItemsPerPage ts.dash n }
  | .changeFilters f => { ts with dash := dashSetFilters ts.dash f }
  | .refreshStart =>
    { ts with pendingRequests := ts.pendingRequests ++ [primaryRequest ts.dash],
              dash := { ts.dash with loading := true } }
  | .refreshArrive res => { ts with dash := (refreshOutcome ts.dash res).1 }

/-- Run a sequence of events. -/
def runEvents (ts : TraceState) (es : List DashEvent) : TraceState :=
  es.foldl stepEvent ts

/-! ## Selection and bulk-action gatekeeper

`companies-view.tsx` lines 78-91 (eligibility predicates), 117-129
(`handleVetSelected`), 145-168 (`handleApproveRejectSelected`).
-/

/-- `allCompaniesForStats.find(c => c.id === id)`. -/
def findCompany (all : List Company) (id : Nat) : Option Company :=
  all.find? (fun c => c.id == id)

/-- `selectedCompanyObjects` (companies-view.tsx lines 82-84): resolve each
selected ID against the full entity set and drop the unresolvable ones. -/
def selectedCompanyObjects (sel : List Nat) (all : List Company) :
    List Company :=
  (sel.map (findCompany all)).reduceOption

/-- `canApprove` (companies-view.tsx lines 79-87): false on an empty
selection, else true iff some resolved selected company is `Vetted`. -/
def canApprove (sel : List Nat) (all : List Company) : Bool :=
  if sel.length = 0 then false
  else (selectedCompanyObjects sel all).any (fun c => c.status == .Vetted)

/-- `canReject` (companies-view.tsx lines 79-88): allowed source statuses
`Vetted` and `New`. -/
def canReject (sel : List Nat) (all : List Company) : Bool :=
  if sel.length = 0 then false
  else (selectedCompanyObjects sel all).any
    (fun c => c.status == .Vetted || c.status == .New)

/-- `canVet` (companies-view.tsx lines 79-89): allowed source statuses `New`
and `Failed`. -/
def canVet (sel : List Nat) (all : List Company) : Bool :=
  if sel.length = 0 then false
  else (selectedCompanyObjects sel all).any
    (fun c => c.status == .New || c.status == .Failed)

/-- The two bulk actions handled by `handleApproveRejectSelected`. -/
inductive BulkAction where
  | approve
  | reject
deriving DecidableEq, Repr

/-- `processableIds` (companies-view.tsx lines 146-152): the selected IDs
whose resolved company has an allowed status for the action; IDs that do not
resolve are dropped. -/
def processableIds (action : BulkAction) (sel : List Nat)
    (all : List Company) : List Nat :=
  sel.filter (fun i =>
    match findCompany all i with
    | some c =>
      match action with
      | .approve => c.status == .Vetted
      | .reject => c.status == .Vetted || c.status == .New
    | none => false)

/-- `idsToVet` (companies-view.tsx lines 118-121): selected IDs resolving to
a `New` or `Failed` company. -/
def vetEligibleIds (sel : List Nat) (all : List Company) : List Nat :=
  sel.filter (fun i =>
    match findCompany all i with
    | some c => c.status == .New || c.status == .Failed
    | none => false)

/-- Observable outcome of one bulk-action invocation: the ID list passed to
the external operation (`none` when validation stopped it), the selection
afterwards, whether a refresh was triggered, and whether an error toast was
shown. -/
structure BulkOutcome where
  calledIds : Option (List Nat)
  selectionAfter : List Nat
  refreshTriggered : Bool
  errorToast : Bool
deriving DecidableEq, Repr

/-- `handleApproveRejectSelected` (companies-view.tsx lines 145-168).
Empty processable subset: destructive toast, nothing else.  Otherwise the
API is called with exactly the processable IDs; on success the selection is
cleared and a refresh triggered, on API failure only an error toast shows. -/
def handleApproveRejectSelected (action : BulkAction) (sel : List Nat)
    (all : List Company) (apiOk : Bool) : BulkOutcome :=
  let ids := processableIds action sel all
  if ids.length = 0 then
    { calledIds := none, selectionAfter := sel, refreshTriggered := false,
      errorToast := true }
  else if apiOk then
    { calledIds := some ids, selectionAfter := [], refreshTriggered := true,
      errorToast := false }
  else
    { calledIds := some ids, selectionAfter := sel, refreshTriggered := false,
      errorToast := true }

/-- `handleVetSelected` (companies-view.tsx lines 117-129), with
`handleVetCompanies` (lines 93-105) inlined: the vet call's errors are caught
inside `handleVetCompanies`, so the selection is cleared even when the call
fails; a refresh is triggered only on success. -/
def handleVetSelected (sel : List Nat) (all : List Company) (apiOk : Bool) :
    BulkOutcome :=
  let ids := vetEligibleIds sel all
  if ids.length = 0 then
    { calledIds := none, selectionAfter := sel, refreshTriggered := false,
      errorToast := true }
  else if apiOk then
    { calledIds := some ids, selectionAfter := [], refreshTriggered := true,
      errorToast := false }
  else
    { calledIds := some ids, selectionAfter := [], refreshTriggered := false,
      errorToast := true }

/-! ## Concrete sample records used by the closed evaluation theorems -/

/-- A minimal company with every optional field absent. -/
def mkCompany (id : Nat) (domain : String) (status : Status) : Company :=
  { id := id, name := none, domain := domain, status := status,
    group_name := none, unified_score := none, geography_score := none,
    industry_score := none, russia_score := none, size_score := none,
    created_at := none }

/-- A filter specification whose unified range is narrowed to `[7,10]` and
whose include-unscored toggle is off. -/
def narrowedUnifiedFilters : CompanyFilters :=
  let r : ScoreRanges := { defaultScoreRanges with unified := (7, 10) }
  { defaultFilters with include_null_scores := false, scoreRanges := r }

/-- Record returned for ID 7 by a primary fetch. -/
def primaryRec : Company := mkCompany 7 "primary.com" Status.Vetted

/-- Record returned for the same ID 7 by the auxiliary fetch. -/
def auxRec : Company := mkCompany 7 "aux.com" Status.New

/-- A page-1 response used in the stale-refresh trace. -/
def page1Response : CompaniesResponse :=
  { data := [mkCompany 101 "pageone.com" Status.Vetted], count := 42 }

/-- All four fetches of the page-1 refresh cycle succeed. -/
def page1Results : FetchResults :=
  { primary := Except.ok page1Response,
    auxiliary := Except.ok { data := [], count := 0 },
    contacts := Except.ok [], stats := Except.ok [] }

/-! # Theorems -/

/-! ## Helper lemmas -/

/-- Looking a key up after one map insertion: the inserted entry wins its own
key, every other key is unchanged. -/
theorem pairLookup_jsMapInsert (m : List (Nat × Company)) (e : Nat × Company)
    (k : Nat) :
    pairLookup (jsMapInsert m e) k =
      if e.1 == k then some e.2 else pairLookup m k := by
  induction m with
  | nil =>
    simp only [jsMapInsert, pairLookup, List.find?]
    cases h : (e.1 == k) <;> simp [h]
  | cons p ps ih =>
    by_cases h1 : p.1 = e.1
    · simp only [jsMapInsert, beq_iff_eq, h1, if_pos]
      simp only [pairLookup, List.find?]
      by_cases h3 : e.1 = k
      · simp [h3]
      · have h4 : (e.1 == k) = false := by simp [h3]
        have h2 : (p.1 == k) = false := by simp [h1, h3]
        simp [h3, h2, h4, pairLookup]
    · have h1' : (p.1 == e.1) = false := by simp [h1]
      simp only [jsMapInsert, h1', Bool.false_eq_true, if_neg, not_false_iff]
      simp only [pairLookup, List.find?] at *
      by_cases h2 : p.1 = k
      · have h3 : ¬ e.1 = k := fun hek => h1 (h2.trans hek.symm)
        simp [h2, h3]
      · simp only [show (p.1 == k) = false by simp [h2]]
        simpa [pairLookup] using ih


/-- Folding insertions into a map: a key maps to the value of its last
inserted entry, falling back to the initial map. -/
theorem pairLookup_foldl (es : List (Nat × Company)) (m : List (Nat × Company))
    (k : Nat) :
    pairLookup (es.foldl jsMapInsert m) k =
      (pairLookup es.reverse k).or (pairLookup m k) := by
  induction es generalizing m with
  | nil => simp [pairLookup, List.find?]
  | cons e tl ih =>
    simp only [List.foldl_cons, List.reverse_cons]
    rw [ih (jsMapInsert m e), pairLookup_jsMapInsert]
    have happ : pairLookup (tl.reverse ++ [e]) k =
        (pairLookup tl.reverse k).or (if e.1 == k then some e.2 else none) := by
      unfold pairLookup
      rw [List.find?_append]
      cases hf : List.find? (fun q => q.1 == k) tl.reverse with
      | none =>
        cases h : (e.1 == k) <;> simp [hf, List.find?, h]
      | some v => simp [hf]
    rw [happ]
    cases hf : pairLookup tl.reverse k <;> cases h : (e.1 == k) <;> simp [h]

/-- Every entry of a map obtained by repeated insertion comes from the
initial map or from the inserted entries. -/
theorem jsMapInsert_forall (P : Nat × Company → Prop)
    (m : List (Nat × Company)) (e : Nat × Company)
    (hm : ∀ x ∈ m, P x) (he : P e) : ∀ x ∈ jsMapInsert m e, P x := by
  induction m with
  | nil =>
    intro x hx
    simp only [jsMapInsert, List.mem_singleton] at hx
    exact hx ▸ he
  | cons q ps ih =>
    intro x hx
    by_cases h1 : q.1 == e.1
    · simp only [jsMapInsert, h1, if_pos, List.mem_cons] at hx
      rcases hx with rfl | hx
      · exact he
      · exact hm x (by simp [hx])
    · simp only [jsMapInsert, h1, Bool.false_eq_true, if_neg, not_false_iff,
        List.mem_cons] at hx
      rcases hx with rfl | hx
      · exact hm x (by simp)
      · exact ih (fun y hy => hm y (by simp [hy])) x hx

/-- Entry-wise invariants survive the whole fold. -/
theorem foldl_jsMapInsert_forall (P : Nat × Company → Prop) :
    ∀ (es m : List (Nat × Company)), (∀ x ∈ es, P x) → (∀ x ∈ m, P x) →
      ∀ x ∈ es.foldl jsMapInsert m, P x := by
  intro es
  induction es with
  | nil => intro m _ hm; simpa using hm
  | cons e tl ih =>
    intro m hes hm
    simp only [List.foldl_cons]
    exact ih (jsMapInsert m e) (fun x hx => hes x (by simp [hx]))
      (jsMapInsert_forall P m e hm (hes e (by simp)))

/-- Two pointwise-equal predicates find the same first element. -/
theorem find?_congr_mem {α : Type} (l : List α) (p q : α → Bool)
    (h : ∀ x ∈ l, p x = q x) : l.find? p = l.find? q := by
  induction l with
  | nil => rfl
  | cons a tl ih =>
    by_cases hqa : q a = true
    · simp [List.find?, h a (by simp), hqa]
    · have hqa' : q a = false := by simpa using hqa
      simp [List.find?, h a (by simp), hqa',
        ih (fun x hx => h x (by simp [hx]))]

/-- Looking up a key in an association list built from companies keyed by
their own IDs is finding the company by ID. -/
theorem pairLookup_map_self (l : List Company) (idv : Nat) :
    pairLookup (l.map (fun c => (c.id, c))) idv =
      l.find? (fun c => c.id == idv) := by
  unfold pairLookup
  rw [List.find?_map]
  rcases hf : l.find? ((fun q => q.1 == idv) ∘ (fun c => (c.id, c))) with _ | c
  · rw [hf]
    exact hf.symm
  · rw [hf]
    exact hf.symm

/-- The de-duplicated merge of part_006 line 72 resolves every ID to the
LAST record inserted under it: the auxiliary list's matches take precedence
over the primary list's. -/
theorem mergeCompanies_find? (p a : List Company) (idv : Nat) :
    (mergeCompanies p a).find? (fun c => c.id == idv) =
      (a.reverse ++ p.reverse).find? (fun c => c.id == idv) := by
  unfold mergeCompanies jsMapOfList
  have hinv : ∀ x ∈ ((p ++ a).map (fun c => (c.id, c))).foldl jsMapInsert [],
      x.2.id = x.1 := by
    apply foldl_jsMapInsert_forall
    · intro x hx
      rcases List.mem_map.mp hx with ⟨c, _, rfl⟩
      rfl
    · intro x hx
      exact absurd hx (List.not_mem_nil x)
  rw [List.find?_map]
  have hcongr :
      (((p ++ a).map (fun c => (c.id, c))).foldl jsMapInsert []).find?
          ((fun c => c.id == idv) ∘ Prod.snd) =
        (((p ++ a).map (fun c => (c.id, c))).foldl jsMapInsert []).find?
          (fun q => q.1 == idv) := by
    apply find?_congr_mem
    intro x hx
    simp only [Function.comp]
    rw [hinv x hx]
  rw [hcongr]
  have hfold := pairLookup_foldl ((p ++ a).map (fun c => (c.id, c))) [] idv
  unfold pairLookup at hfold
  rw [hfold]
  have hrev : ((p ++ a).map (fun c => (c.id, c))).reverse =
      (a.reverse ++ p.reverse).map (fun c => (c.id, c)) := by
    rw [← List.map_reverse, List.reverse_append]
  rw [hrev]
  have hlook := pairLookup_map_self (a.reverse ++ p.reverse) idv
  unfold pairLookup at hlook
  rw [hlook]
  cases (a.reverse ++ p.reverse).find? (fun c => c.id == idv) <;> rfl

/-! ## Claim C5: derived page count -/

/-- C5 counterexample: at zero results and ten items per page the code's
`Math.ceil(0/10)` is `0`, not the claimed `max(1, ceil(0/10)) = 1`. -/
theorem totalPages_min_clamp_false :
    totalPages 0 10 ≠ max 1 (ceilDivNat 0 10) ∧ totalPages 0 10 = 0 := by
  decide

/-- C5 (corrected): for every count and positive itemsPerPage the derived
page count is the UNclamped ceiling of count/itemsPerPage — it is the least
number of pages covering all results, agrees with the claim's
`max(1, ceil(count/itemsPerPage))` whenever `count > 0`, but is `0` (not `1`)
when `count = 0`. -/
theorem totalPages_ceil_no_min_clamp (count ipp : Nat) (h : 0 < ipp) :
    count ≤ totalPages count ipp * ipp ∧
    totalPages count ipp * ipp < count + ipp ∧
    (0 < count → totalPages count ipp = max 1 (ceilDivNat count ipp)) ∧
    (count = 0 → totalPages count ipp = 0) := by
  simp only [totalPages, ceilDivNat]
  obtain ⟨q, hq⟩ : ∃ q, (count + ipp - 1) / ipp = q := ⟨_, rfl⟩
  obtain ⟨r, hr⟩ : ∃ r, (count + ipp - 1) % ipp = r := ⟨_, rfl⟩
  have hdm := Nat.div_add_mod (count + ipp - 1) ipp
  have hmod : (count + ipp - 1) % ipp < ipp := Nat.mod_lt _ h
  rw [hq, hr] at hdm
  rw [hr] at hmod
  rw [hq]
  obtain ⟨x, hx⟩ : ∃ x, q * ipp = x := ⟨_, rfl⟩
  have hx' : ipp * q = x := by rw [Nat.mul_comm]; exact hx
  rw [hx'] at hdm
  rw [hx]
  have hq1 : 0 < count → 1 ≤ q := by
    intro hc
    rcases Nat.eq_zero_or_pos q with h0 | h1
    · exfalso
      rw [h0, Nat.zero_mul] at hx
      omega
    · exact h1
  have hq0 : count = 0 → q = 0 := by
    intro hc
    rcases Nat.eq_zero_or_pos q with h0 | h1
    · exact h0
    · exfalso
      have hle : ipp ≤ x := by
        rw [← hx]
        exact Nat.le_mul_of_pos_left ipp h1
      omega
  refine ⟨by omega, by omega, fun hc => ?_, hq0⟩
  exact (Nat.max_eq_right (hq1 hc)).symm

/-- C5 witness: instantiation at count 7, itemsPerPage 10. -/
theorem totalPages_ceil_no_min_clamp_witness :
    0 < 10 ∧
    (7 ≤ totalPages 7 10 * 10 ∧ totalPages 7 10 * 10 < 7 + 10 ∧
     (0 < 7 → totalPages 7 10 = max 1 (ceilDivNat 7 10)) ∧
     (7 = 0 → totalPages 7 10 = 0)) :=
  ⟨by decide, totalPages_ceil_no_min_clamp 7 10 (by decide)⟩

/-! ## Claim C6: page resets on itemsPerPage/filter changes -/

/-- C6 counterexample: in the part_006 dashboard, changing the page size to
50 and changing the search filter both leave `currentPage` untouched (here at
2 and 3), contradicting the claimed reset to 1. -/
theorem pageReset_on_param_change_false :
    (dashSetItemsPerPage { initialDashState with currentPage := 2 }
        50).currentPage ≠ 1 ∧
    (dashSetFilters { initialDashState with currentPage := 3 }
        { defaultFilters with search := "acme" }).currentPage ≠ 1 := by
  decide

/-- C6 (corrected): the reset-to-page-1 behaviour exists only in the part_003
CompaniesView, whose effect resets `currentPage` to 1 after any itemsPerPage
or filter change; the part_006 Dashboard wires the raw setters through, so
there `setItemsPerPage` and filter changes leave `currentPage` unchanged. -/
theorem pageReset_variants (st3 : ViewState003) (st6 : DashState) (n : Nat)
    (f : CompanyFilters) :
    (viewSetItemsPerPage003 st3 n).currentPage = 1 ∧
    (viewSetFilters003 st3 f).currentPage = 1 ∧
    (dashSetItemsPerPage st6 n).currentPage = st6.currentPage ∧
    (dashSetFilters st6 f).currentPage = st6.currentPage :=
  ⟨rfl, rfl, rfl, rfl⟩

/-! ## Claim C8: toggleSort -/

/-- C8 counterexample: the dashboard.tsx revision's `handleSortChange` does
not reset the page — toggling sort to "name" from page 2 stays on page 2,
contradicting the claimed reset to 1 (the direction logic itself behaves as
claimed). -/
theorem toggleSort_page_reset_false :
    (handleSortChangeV43 { initialDashState with currentPage := 2 }
        "name").currentPage ≠ 1 ∧
    (handleSortChangeV43 { initialDashState with currentPage := 2 }
        "name").sortBy = "name" ∧
    (handleSortChangeV43 { initialDashState with currentPage := 2 }
        "name").sortDir = "asc" := by
  decide

/-- C8 (corrected): both `handleSortChange` variants flip the direction when
the field is already the sort field and otherwise adopt the field with
default direction desc for score fields (names containing "_score") and asc
otherwise; but only the part_006 variant resets `currentPage` to 1 — the
dashboard.tsx revision leaves `currentPage` unchanged. -/
theorem toggleSort_behavior (st : DashState) (field : String) :
    (st.sortBy = field →
      (handleSortChange006 st field).sortBy = st.sortBy ∧
      (handleSortChange006 st field).sortDir =
        (if st.sortDir = "asc" then "desc" else "asc") ∧
      (handleSortChangeV43 st field).sortDir =
        (if st.sortDir = "asc" then "desc" else "asc")) ∧
    (st.sortBy ≠ field →
      (handleSortChange006 st field).sortBy = field ∧
      (handleSortChange006 st field).sortDir =
        (if fieldIncludesScore field then "desc" else "asc") ∧
      (handleSortChangeV43 st field).sortBy = field ∧
      (handleSortChangeV43 st field).sortDir =
        (if fieldIncludesScore field then "desc" else "asc")) ∧
    (handleSortChange006 st field).currentPage = 1 ∧
    (handleSortChangeV43 st field).currentPage = st.currentPage := by
  unfold handleSortChange006 handleSortChangeV43
  by_cases h : st.sortBy = field <;> simp [h]

/-- C8 witness: instantiation at the initial state and the "unified_score"
field, a fresh score field adopted with descending direction. -/
theorem toggleSort_behavior_witness :
    initialDashState.sortBy ≠ "unified_score" ∧
    ((handleSortChange006 initialDashState "unified_score").sortBy =
        "unified_score" ∧
     (handleSortChange006 initialDashState "unified_score").sortDir =
        (if fieldIncludesScore "unified_score" then "desc" else "asc") ∧
     (handleSortChangeV43 initialDashState "unified_score").sortBy =
        "unified_score" ∧
     (handleSortChangeV43 initialDashState "unified_score").sortDir =
        (if fieldIncludesScore "unified_score" then "desc" else "asc")) ∧
    (handleSortChange006 initialDashState "unified_score").currentPage = 1 :=
  ⟨by decide,
   (toggleSort_behavior initialDashState "unified_score").2.1 (by decide),
   (toggleSort_behavior initialDashState "unified_score").2.2.1⟩

/-! ## Claim C2: stale refresh cycles -/

/-- C2 (code bug): part_006's `refreshData` has no generation tagging or
cancellation, so a stale response commits.  Trace: a refresh starts while
`currentPage = 1` (its captured request has `page = 1`); the user navigates
to page 2; then the page-1 response arrives and its setters overwrite the
visible slice and total count even though the current page is 2 — the claim
requires that response to be discarded. -/
theorem stale_refresh_overwrites_newer_state :
    (runEvents { dash := initialDashState, pendingRequests := [] }
        [DashEvent.refreshStart, DashEvent.setPage 2,
         DashEvent.refreshArrive page1Results]).pendingRequests =
      [primaryRequest initialDashState] ∧
    (primaryRequest initialDashState).page = 1 ∧
    (runEvents { dash := initialDashState, pendingRequests := [] }
        [DashEvent.refreshStart, DashEvent.setPage 2,
         DashEvent.refreshArrive page1Results]).dash.currentPage = 2 ∧
    (runEvents { dash := initialDashState, pendingRequests := [] }
        [DashEvent.refreshStart, DashEvent.setPage 2,
         DashEvent.refreshArrive page1Results]).dash.companies =
      page1Response.data ∧
    (runEvents { dash := initialDashState, pendingRequests := [] }
        [DashEvent.refreshStart, DashEvent.setPage 2,
         DashEvent.refreshArrive page1Results]).dash.totalCompanies = 42 := by
  decide

/-! ## Claim C1: composite-query merge -/

/-- C1 counterexample: when the same ID 7 appears in both fetch results, the
merged output holds the AUXILIARY fetch's record, not the primary's as
claimed — `new Map(entries)` keeps the last entry for a duplicated key and
the auxiliary entries are appended after the primary ones. -/
theorem merge_primary_wins_false :
    mergeCompanies [primaryRec] [auxRec] = [auxRec] ∧
    (mergeCompanies [primaryRec] [auxRec]).find? (fun c => c.id == 7) =
      some auxRec ∧
    auxRec ≠ primaryRec := by
  decide

/-- C1 (corrected): with an active score filter the refresh issues the
primary paginated fetch plus an auxiliary fetch scoped to statuses New and
Failed (page 1, page size 1000, default score ranges), reports the total as
the sum of the two counts, and de-duplicates by ID with the AUXILIARY
result winning every ID conflict: resolving any ID in the merged output
equals resolving it in the reversed auxiliary list first and the reversed
primary list second (last-inserted record wins). -/
theorem composite_merge_aux_wins (p a : List Company) (idv : Nat)
    (st : DashState) (h : isScoreFilterActive st.filters = true)
    (pr ar : CompaniesResponse) (cd : List Contact) (sd : List Company) :
    ((mergeCompanies p a).find? (fun c => c.id == idv) =
      (a.reverse ++ p.reverse).find? (fun c => c.id == idv)) ∧
    (auxiliaryRequest st).filters.status = [Status.New, Status.Failed] ∧
    (auxiliaryRequest st).filters.scoreRanges = defaultScoreRanges ∧
    (auxiliaryRequest st).page = 1 ∧
    (auxiliaryRequest st).limit = 1000 ∧
    (refreshOutcome st
      { primary := Except.ok pr, auxiliary := Except.ok ar,
        contacts := Except.ok cd, stats := Except.ok sd }).1.companies =
      mergeCompanies pr.data ar.data ∧
    (refreshOutcome st
      { primary := Except.ok pr, auxiliary := Except.ok ar,
        contacts := Except.ok cd, stats := Except.ok sd }).1.totalCompanies =
      pr.count + ar.count := by
  refine ⟨mergeCompanies_find? p a idv, rfl, rfl, rfl, rfl, ?_, ?_⟩ <;>
    simp [refreshOutcome, h]

/-- C1 witness: instantiation with the sample conflicting records and a state
whose unified range is narrowed. -/
theorem composite_merge_aux_wins_witness :
    isScoreFilterActive narrowedUnifiedFilters = true ∧
    (((mergeCompanies [primaryRec] [auxRec]).find? (fun c => c.id == 7) =
       ([auxRec].reverse ++ [primaryRec].reverse).find? (fun c => c.id == 7)) ∧
     (auxiliaryRequest { initialDashState with
        filters := narrowedUnifiedFilters }).filters.status =
       [Status.New, Status.Failed] ∧
     (auxiliaryRequest { initialDashState with
        filters := narrowedUnifiedFilters }).filters.scoreRanges =
       defaultScoreRanges ∧
     (auxiliaryRequest { initialDashState with
        filters := narrowedUnifiedFilters }).page = 1 ∧
     (auxiliaryRequest { initialDashState with
        filters := narrowedUnifiedFilters }).limit = 1000 ∧
     (refreshOutcome { initialDashState with filters := narrowedUnifiedFilters }
       { primary := Except.ok { data := [primaryRec], count := 5 },
         auxiliary := Except.ok { data := [auxRec], count := 3 },
         contacts := Except.ok [], stats := Except.ok [] }).1.companies =
       mergeCompanies [primaryRec] [auxRec] ∧
     (refreshOutcome { initialDashState with filters := narrowedUnifiedFilters }
       { primary := Except.ok { data := [primaryRec], count := 5 },
         auxiliary := Except.ok { data := [auxRec], count := 3 },
         contacts := Except.ok [], stats := Except.ok [] }).1.totalCompanies =
       5 + 3) :=
  ⟨by decide,
   composite_merge_aux_wins [primaryRec] [auxRec] 7
     { initialDashState with filters := narrowedUnifiedFilters } (by decide)
     { data := [primaryRec], count := 5 } { data := [auxRec], count := 3 }
     [] []⟩

/-! ## Claim C7: score-range rule of the filter predicate -/

/-- C7 counterexample: with the include-unscored toggle OFF and the unified
range narrowed to `[7,10]`, a company lacking a unified score still passes
the predicate — the claim requires it to be excluded.  The client predicate
never consults the toggle. -/
theorem unscored_excluded_when_toggle_off_false :
    narrowedUnifiedFilters.include_null_scores = false ∧
    (0 : ℚ) < narrowedUnifiedFilters.scoreRanges.unified.1 ∧
    (mkCompany 1 "acme.com" Status.New).unified_score = none ∧
    filteredPred narrowedUnifiedFilters (mkCompany 1 "acme.com" Status.New) =
      true := by
  decide

/-- C7 (corrected): per dimension, a present score must lie within the
configured range inclusive, and an ABSENT score always passes the range
check regardless of the include-unscored toggle and of how far the range is
narrowed: the predicate never reads `include_null_scores` (the toggle exists
only in the filter UI state), so the claim's exclusion branch for toggle-off
does not exist. -/
theorem scoreRange_rule (f : CompanyFilters) (c : Company) (range : ℚ × ℚ)
    (s : ℚ) (b : Bool) :
    (scoreRangeCheck range (some s) = true ↔ range.1 ≤ s ∧ s ≤ range.2) ∧
    scoreRangeCheck range none = true ∧
    filteredPred { f with include_null_scores := b } c = filteredPred f c ∧
    (filteredPred f c = true →
      scoreRangeCheck f.scoreRanges.unified c.unified_score = true ∧
      scoreRangeCheck f.scoreRanges.geography c.geography_score = true ∧
      scoreRangeCheck f.scoreRanges.industry c.industry_score = true ∧
      scoreRangeCheck f.scoreRanges.russia c.russia_score = true ∧
      scoreRangeCheck f.scoreRanges.size c.size_score = true) := by
  refine ⟨?_, rfl, rfl, ?_⟩
  · simp [scoreRangeCheck, not_lt]
  · intro h
    simp only [filteredPred, Bool.and_eq_true] at h
    obtain ⟨⟨⟨⟨⟨_, hu⟩, hg⟩, hi⟩, hr⟩, hs⟩ := h
    exact ⟨hu, hg, hi, hr, hs⟩

/-- C7 witness: instantiation with the narrowed filter, a scored company
inside the range, and toggle value false. -/
theorem scoreRange_rule_witness :
    (scoreRangeCheck (7, 10) (some 8) = true ↔ (7 : ℚ) ≤ 8 ∧ (8 : ℚ) ≤ 10) ∧
    scoreRangeCheck (7, 10) none = true ∧
    filteredPred { defaultFilters with include_null_scores := false }
        (mkCompany 2 "b.com" Status.Vetted) =
      filteredPred defaultFilters (mkCompany 2 "b.com" Status.Vetted) ∧
    (filteredPred defaultFilters (mkCompany 2 "b.com" Status.Vetted) = true →
      scoreRangeCheck defaultFilters.scoreRanges.unified
        (mkCompany 2 "b.com" Status.Vetted).unified_score = true ∧
      scoreRangeCheck defaultFilters.scoreRanges.geography
        (mkCompany 2 "b.com" Status.Vetted).geography_score = true ∧
      scoreRangeCheck defaultFilters.scoreRanges.industry
        (mkCompany 2 "b.com" Status.Vetted).industry_score = true ∧
      scoreRangeCheck defaultFilters.scoreRanges.russia
        (mkCompany 2 "b.com" Status.Vetted).russia_score = true ∧
      scoreRangeCheck defaultFilters.scoreRanges.size
        (mkCompany 2 "b.com" Status.Vetted).size_score = true) :=
  scoreRange_rule defaultFilters (mkCompany 2 "b.com" Status.Vetted) (7, 10) 8
    false

/-! ## Claim C9: weekly-growth statistic -/

/-- C9 (confirmed): the weekly-growth statistic is a finite number for every
entity set (the division only happens under the `previousTotal > 0` guard,
so its divisor is never zero), it is 0 for the empty set, and an entity with
a missing creation timestamp is excluded from the weekly count while still
counting toward the total. -/
theorem weeklyGrowth_finite (cs : List Company) (now : Int) (c : Company) :
    (∃ q, weeklyGrowthStat cs now = JSNum.num q) ∧
    weeklyGrowthStat [] now = JSNum.num 0 ∧
    (c.created_at = none →
      companiesThisWeek (c :: cs) now = companiesThisWeek cs now ∧
      statsTotal (c :: cs) = statsTotal cs + 1) := by
  refine ⟨?_, ?_, fun h => ⟨?_, ?_⟩⟩
  · unfold weeklyGrowthStat
    by_cases h1 :
        (0 : Int) < (statsTotal cs : Int) - (companiesThisWeek cs now : Int)
    · have hb : (((statsTotal cs : Int) -
          (companiesThisWeek cs now : Int) : Int) : ℚ) ≠ 0 := by
        have hpos : (0 : ℚ) < (((statsTotal cs : Int) -
            (companiesThisWeek cs now : Int) : Int) : ℚ) := by
          exact_mod_cast h1
        exact ne_of_gt hpos
      simp only [h1, if_pos, jsDiv, jsMul, hb, if_neg, not_false_iff]
      exact ⟨_, rfl⟩
    · by_cases h2 : (0 : Int) < (statsTotal cs : Int)
      · simp only [h1, if_neg, not_false_iff, h2, if_pos]
        exact ⟨100, rfl⟩
      · simp only [h1, h2, if_neg, not_false_iff]
        exact ⟨0, rfl⟩
  · rfl
  · simp [companiesThisWeek, h]
  · rfl

/-- C9 witness: instantiation at a two-company set (one with a missing
timestamp) and a concrete cutoff. -/
theorem weeklyGrowth_finite_witness :
    (mkCompany 9 "no-date.com" Status.New).created_at = none ∧
    ((∃ q, weeklyGrowthStat [mkCompany 8 "dated.com" Status.New] 0 =
        JSNum.num q) ∧
     weeklyGrowthStat [] 0 = JSNum.num 0 ∧
     ((mkCompany 9 "no-date.com" Status.New).created_at = none →
       companiesThisWeek
           (mkCompany 9 "no-date.com" Status.New ::
             [mkCompany 8 "dated.com" Status.New]) 0 =
         companiesThisWeek [mkCompany 8 "dated.com" Status.New] 0 ∧
       statsTotal
           (mkCompany 9 "no-date.com" Status.New ::
             [mkCompany 8 "dated.com" Status.New]) =
         statsTotal [mkCompany 8 "dated.com" Status.New] + 1)) :=
  ⟨rfl, weeklyGrowth_finite [mkCompany 8 "dated.com" Status.New] 0
    (mkCompany 9 "no-date.com" Status.New)⟩

/-! ## Claims C3 and C10: selection and bulk-action gatekeeper -/

/-- A successful `find` against the full set yields a member with the looked
up ID. -/
theorem findCompany_spec (all : List Company) (i : Nat) (c : Company)
    (h : findCompany all i = some c) : c ∈ all ∧ c.id = i := by
  unfold findCompany at h
  refine ⟨List.mem_of_find?_eq_some h, ?_⟩
  have := List.find?_some h
  simpa using this

/-- C3 (confirmed): each bulk action's eligibility predicate is false on an
empty selection, false exactly when every resolvable selected entity's
status is outside the action's allowed set (vet: New/Failed; approve:
Vetted; reject: Vetted/New) and true otherwise; the IDs an invoked action
passes to the external operation are exactly the eligible subset of the
selection; and on success the invocation clears the selection and triggers a
refresh. -/
theorem bulk_eligibility_and_invocation (sel : List Nat)
    (all : List Company) :
    (sel = [] →
      canVet sel all = false ∧ canApprove sel all = false ∧
      canReject sel all = false) ∧
    (canVet sel all = false ↔ ∀ c ∈ selectedCompanyObjects sel all,
      c.status ≠ Status.New ∧ c.status ≠ Status.Failed) ∧
    (canApprove sel all = false ↔ ∀ c ∈ selectedCompanyObjects sel all,
      c.status ≠ Status.Vetted) ∧
    (canReject sel all = false ↔ ∀ c ∈ selectedCompanyObjects sel all,
      c.status ≠ Status.Vetted ∧ c.status ≠ Status.New) ∧
    (∀ i, i ∈ vetEligibleIds sel all ↔ i ∈ sel ∧
      ∃ c, findCompany all i = some c ∧
        (c.status = Status.New ∨ c.status = Status.Failed)) ∧
    (∀ i, i ∈ processableIds BulkAction.approve sel all ↔ i ∈ sel ∧
      ∃ c, findCompany all i = some c ∧ c.status = Status.Vetted) ∧
    (∀ i, i ∈ processableIds BulkAction.reject sel all ↔ i ∈ sel ∧
      ∃ c, findCompany all i = some c ∧
        (c.status = Status.Vetted ∨ c.status = Status.New)) ∧
    (∀ action, processableIds action sel all ≠ [] →
      handleApproveRejectSelected action sel all true =
        { calledIds := some (processableIds action sel all),
          selectionAfter := [], refreshTriggered := true,
          errorToast := false }) ∧
    (vetEligibleIds sel all ≠ [] →
      handleVetSelected sel all true =
        { calledIds := some (vetEligibleIds sel all), selectionAfter := [],
          refreshTriggered := true, errorToast := false }) := by
  refine ⟨?_, ?_, ?_, ?_, ?_, ?_, ?_, ?_, ?_⟩
  · rintro rfl
    exact ⟨rfl, rfl, rfl⟩
  · by_cases hsel : sel.length = 0
    · rw [List.length_eq_zero] at hsel
      subst hsel
      simp [canVet, selectedCompanyObjects]
    · simp only [canVet, hsel, if_neg, not_false_iff, List.any_eq_false]
      constructor
      · intro h c hc
        have := h c hc
        simpa using this
      · intro h c hc
        have := h c hc
        simpa using this
  · by_cases hsel : sel.length = 0
    · rw [List.length_eq_zero] at hsel
      subst hsel
      simp [canApprove, selectedCompanyObjects]
    · simp only [canApprove, hsel, if_neg, not_false_iff, List.any_eq_false]
      constructor
      · intro h c hc
        have := h c hc
        simpa using this
      · intro h c hc
        have := h c hc
        simpa using this
  · by_cases hsel : sel.length = 0
    · rw [List.length_eq_zero] at hsel
      subst hsel
      simp [canReject, selectedCompanyObjects]
    · simp only [canReject, hsel, if_neg, not_false_iff, List.any_eq_false]
      constructor
      · intro h c hc
        have := h c hc
        simpa using this
      · intro h c hc
        have := h c hc
        simpa using this
  · intro i
    simp only [vetEligibleIds, List.mem_filter, and_congr_right_iff]
    intro _
    rcases hfc : findCompany all i with _ | c <;> simp [hfc]
  · intro i
    simp only [processableIds, List.mem_filter, and_congr_right_iff]
    intro _
    rcases hfc : findCompany all i with _ | c <;> simp [hfc]
  · intro i
    simp only [processableIds, List.mem_filter, and_congr_right_iff]
    intro _
    rcases hfc : findCompany all i with _ | c <;> simp [hfc]
  · intro action h
    have hlen : (processableIds action sel all).length ≠ 0 := by
      simpa [List.length_eq_zero] using h
    simp [handleApproveRejectSelected, hlen]
  · intro h
    have hlen : (vetEligibleIds sel all).length ≠ 0 := by
      simpa [List.length_eq_zero] using h
    simp [handleVetSelected, hlen]

/-- C3 witness: selection `[1, 2, 5]` against a set holding a Vetted company
1 and a New company 2 (ID 5 resolves to nothing); the approve action is
invoked with exactly the eligible subset and clears the selection. -/
theorem bulk_eligibility_and_invocation_witness :
    processableIds BulkAction.approve [1, 2, 5]
        [mkCompany 1 "a.com" Status.Vetted, mkCompany 2 "b.com" Status.New] ≠
      [] ∧
    handleApproveRejectSelected BulkAction.approve [1, 2, 5]
        [mkCompany 1 "a.com" Status.Vetted, mkCompany 2 "b.com" Status.New]
        true =
      { calledIds := some (processableIds BulkAction.approve [1, 2, 5]
          [mkCompany 1 "a.com" Status.Vetted, mkCompany 2 "b.com" Status.New]),
        selectionAfter := [], refreshTriggered := true, errorToast := false } :=
  ⟨by decide,
   (bulk_eligibility_and_invocation [1, 2, 5]
       [mkCompany 1 "a.com" Status.Vetted,
        mkCompany 2 "b.com" Status.New]).2.2.2.2.2.2.2.1
     BulkAction.approve (by decide)⟩

/-- C10 (confirmed): every ID a bulk vet/approve/reject passes to the
external operation resolves to an entity of the authoritative full set (with
that very ID), and every entity entering the eligibility computation is a
member of the full set — vanished selected IDs are excluded from both. -/
theorem bulk_ids_resolve (sel : List Nat) (all : List Company) (i : Nat) :
    ((i ∈ vetEligibleIds sel all ∨
      i ∈ processableIds BulkAction.approve sel all ∨
      i ∈ processableIds BulkAction.reject sel all) →
      ∃ c ∈ all, c.id = i) ∧
    (∀ c ∈ selectedCompanyObjects sel all, c ∈ all) := by
  constructor
  · have hres : ∀ (g : Company → Bool),
        (match findCompany all i with
         | some c => g c
         | none => false) = true → ∃ c ∈ all, c.id = i := by
      intro g hg
      rcases hfc : findCompany all i with _ | c
      · rw [hfc] at hg
        exact absurd hg (by simp)
      · obtain ⟨hmem, hid⟩ := findCompany_spec all i c hfc
        exact ⟨c, hmem, hid⟩
    rintro (h | h | h) <;>
      obtain ⟨-, hp⟩ := List.mem_filter.mp h
    · exact hres _ hp
    · exact hres _ hp
    · exact hres _ hp
  · intro c hc
    unfold selectedCompanyObjects at hc
    rw [List.reduceOption_mem_iff] at hc
    rcases List.mem_map.mp hc with ⟨j, -, hfc⟩
    exact (findCompany_spec all j c hfc).1

/-- C10 witness: ID 1 is vet-eligible in a singleton set and resolves there;
the one resolved object is a member of the full set. -/
theorem bulk_ids_resolve_witness :
    (∃ c ∈ [mkCompany 1 "a.com" Status.New], c.id = 1) ∧
    mkCompany 1 "a.com" Status.New ∈ [mkCompany 1 "a.com" Status.New] :=
  ⟨(bulk_ids_resolve [1] [mkCompany 1 "a.com" Status.New] 1).1
     (Or.inl (by decide)),
   (bulk_ids_resolve [1] [mkCompany 1 "a.com" Status.New] 1).2
     (mkCompany 1 "a.com" Status.New) (by decide)⟩

/-! ## Claim C4: atomic refresh commit -/

/-- C4 (confirmed): a refresh commits all-or-nothing — if any consulted
fetch of the cycle rejects, exactly one error toast is surfaced and the
paginated slice, total count, contacts and full-set snapshot all keep their
prior values (only the loading flag clears); when every fetch succeeds, all
four pieces are replaced together with no toast. -/
theorem refresh_atomic_commit (st : DashState) (res : FetchResults) :
    ((fetchFailed res.primary = true ∨
      (isScoreFilterActive st.filters = true ∧
        fetchFailed res.auxiliary = true) ∨
      fetchFailed res.contacts = true ∨ fetchFailed res.stats = true) →
      (refreshOutcome st res).1.companies = st.companies ∧
      (refreshOutcome st res).1.totalCompanies = st.totalCompanies ∧
      (refreshOutcome st res).1.contacts = st.contacts ∧
      (refreshOutcome st res).1.allCompaniesForStats =
        st.allCompaniesForStats ∧
      (refreshOutcome st res).1.loading = false ∧
      (refreshOutcome st res).2 = 1) ∧
    (∀ p a cd sd, res.primary = Except.ok p → res.auxiliary = Except.ok a →
      res.contacts = Except.ok cd → res.stats = Except.ok sd →
      (refreshOutcome st res).2 = 0 ∧
      (refreshOutcome st res).1.loading = false ∧
      (refreshOutcome st res).1.contacts = cd ∧
      (refreshOutcome st res).1.allCompaniesForStats = sd ∧
      (isScoreFilterActive st.filters = true →
        (refreshOutcome st res).1.companies = mergeCompanies p.data a.data ∧
        (refreshOutcome st res).1.totalCompanies = p.count + a.count) ∧
      (isScoreFilterActive st.filters = false →
        (refreshOutcome st res).1.companies = p.data ∧
        (refreshOutcome st res).1.totalCompanies = p.count)) := by
  constructor
  · intro hfail
    obtain ⟨pr, ax, ct, sts⟩ := res
    by_cases hA : isScoreFilterActive st.filters <;>
      cases pr <;> cases ax <;> cases ct <;> cases sts <;>
      simp_all [refreshOutcome, fetchFailed]
  · intro p a cd sd hp ha hc hs
    obtain ⟨pr, ax, ct, sts⟩ := res
    simp only at hp ha hc hs
    subst hp ha hc hs
    by_cases hA : isScoreFilterActive st.filters <;>
      simp [refreshOutcome, hA]

/-- C4 witness: with the default (inactive) score filter, a failed contacts
fetch leaves every piece of state in place with one toast, while an
all-success cycle replaces them. -/
theorem refresh_atomic_commit_witness :
    (fetchFailed (Except.error "boom" : Except String (List Contact)) =
      true) ∧
    ((refreshOutcome initialDashState
        { primary := Except.ok page1Response,
          auxiliary := Except.ok { data := [], count := 0 },
          contacts := Except.error "boom",
          stats := Except.ok [] }).1.companies =
        initialDashState.companies ∧
     (refreshOutcome initialDashState
        { primary := Except.ok page1Response,
          auxiliary := Except.ok { data := [], count := 0 },
          contacts := Except.error "boom",
          stats := Except.ok [] }).1.totalCompanies =
        initialDashState.totalCompanies ∧
     (refreshOutcome initialDashState
        { primary := Except.ok page1Response,
          auxiliary := Except.ok { data := [], count := 0 },
          contacts := Except.error "boom",
          stats := Except.ok [] }).1.contacts = initialDashState.contacts ∧
     (refreshOutcome initialDashState
        { primary := Except.ok page1Response,
          auxiliary := Except.ok { data := [], count := 0 },
          contacts := Except.error "boom",
          stats := Except.ok [] }).1.allCompaniesForStats =
        initialDashState.allCompaniesForStats ∧
     (refreshOutcome initialDashState
        { primary := Except.ok page1Response,
          auxiliary := Except.ok { data := [], count := 0 },
          contacts := Except.error "boom",
          stats := Except.ok [] }).1.loading = false ∧
     (refreshOutcome initialDashState
        { primary := Except.ok page1Response,
          auxiliary := Except.ok { data := [], count := 0 },
          contacts := Except.error "boom",
          stats := Except.ok [] }).2 = 1) :=
  ⟨rfl,
   (refresh_atomic_commit initialDashState
      { primary := Except.ok page1Response,
        auxiliary := Except.ok { data := [], count := 0 },
        contacts := Except.error "boom", stats := Except.ok [] }).1
     (Or.inr (Or.inr (Or.inl rfl)))⟩

end Odysseus
